import Mathlib

/-!
Verification of `lib/gnss/StochasticModel.hpp` (namespace `gnssSpace`):
stochastic (process-noise) models feeding a Kalman-filter GNSS estimator.

Embedding conventions:
* `CommonTime` epochs are rationals (seconds); `CommonTime::BEGINNING_OF_TIME`
  is a distinguished sentinel value smaller than every real epoch.
* `double` values are rationals (exact arithmetic stands in for IEEE doubles).
* Each C++ class becomes a structure; a method becomes a function from the
  structure (plus arguments) to the updated structure, and a getter returns a
  pair (result, post-call object) so that absence of mutation is explicit.
* `std::map` becomes an association list with lookup/overwrite helpers.
* Method bodies that are only declared in the header (their definitions live in
  a translation unit outside the repository snapshot) are modelled from the
  spec; each such definition's doc comment starts with `Modelled from the spec:`.
-/

namespace gnssSpace

/-- Epochs (`CommonTime`): seconds, as exact rationals. -/
abbrev CommonTime := ℚ

/-- Sentinel `CommonTime::BEGINNING_OF_TIME`: a fixed value smaller than any
real epoch (real epochs are nonnegative).  The exact magnitude is immaterial;
code only compares against it for "unset" checks and subtracts it to obtain a
very large elapsed interval. -/
def BEGINNING_OF_TIME : CommonTime := -(10 ^ 15)

/-- Station identity (`SourceID`): opaque, orderable, hashable key. -/
abbrev SourceID := ℕ

/-- Satellite identity (`SatID`): opaque, orderable, hashable key. -/
abbrev SatID := ℕ

/-- The data-field identifiers used by this subsystem (`TypeID::CSFlag`,
`TypeID::satArc`). -/
inductive TypeID where
  | CSFlag : TypeID
  | satArc : TypeID
deriving DecidableEq, Repr

/-- `typeValueMap`: per-epoch data container mapping field ids to values. -/
abbrev typeValueMap := List (TypeID × ℚ)

/-- `satTypeValueMap`: mapping satellites to their per-epoch data. -/
abbrev satTypeValueMap := List (SatID × typeValueMap)

/-- Association-list lookup, modelling `std::map::find`. -/
def alookup {α β : Type} [DecidableEq α] : List (α × β) → α → Option β
  | [], _ => none
  | (k, v) :: rest, key => if key = k then some v else alookup rest key

/-- Association-list overwrite-or-insert, modelling `std::map::operator[]`
followed by assignment. -/
def aset {α β : Type} [DecidableEq α] : List (α × β) → α → β → List (α × β)
  | [], key, v => [(key, v)]
  | (k, w) :: rest, key, v =>
      if key = k then (key, v) :: rest else (k, w) :: aset rest key v

theorem alookup_aset {α β : Type} [DecidableEq α]
    (l : List (α × β)) (k : α) (v : β) : alookup (aset l k v) k = some v := by
  induction l with
  | nil => simp [aset, alookup]
  | cons hd tl ih =>
      obtain ⟨k', w⟩ := hd
      by_cases h : k = k' <;> simp [aset, alookup, h, ih]

/- ===================== RandomWalkModel (single global entity) ============ -/

/-- `RandomWalkModel`: single global epoch pair plus spectral density
(header lines 103-195). -/
structure RandomWalkModel where
  qprime : ℚ
  previousTime : CommonTime
  currentTime : CommonTime
deriving DecidableEq, Repr

/-- Default constructor `RandomWalkModel()` (header lines 109-113): very high
qprime, both epochs at the sentinel. -/
def RandomWalkModel.init : RandomWalkModel :=
  { qprime := 90000000000
    previousTime := BEGINNING_OF_TIME
    currentTime := BEGINNING_OF_TIME }

/-- Three-argument constructor `RandomWalkModel(qp, prevTime, currentTime)`
(header lines 128-134): the member initializer list reads
`qprime(qp), previousTime(prevTime), currentTime(prevTime)` — the
`currentTime` parameter is never used. -/
def RandomWalkModel.mk3 (qp : ℚ) (prevTime currTime : CommonTime) :
    RandomWalkModel :=
  { qprime := qp, previousTime := prevTime, currentTime := prevTime }

/-- `setPreviousTime` (header lines 142-143). -/
def RandomWalkModel.setPreviousTime (m : RandomWalkModel)
    (prevTime : CommonTime) : RandomWalkModel :=
  { m with previousTime := prevTime }

/-- `setCurrentTime` (header lines 151-152). -/
def RandomWalkModel.setCurrentTime (m : RandomWalkModel)
    (currTime : CommonTime) : RandomWalkModel :=
  { m with currentTime := currTime }

/-- `setQprime` (header lines 166-167). -/
def RandomWalkModel.setQprime (m : RandomWalkModel) (qp : ℚ) :
    RandomWalkModel :=
  { m with qprime := qp }

/-- Modelled from the spec: the body of `RandomWalkModel::getQ` (declared at
header line 171, defined outside the snapshot).  Spec 4.2: Q is the spectral
density times the elapsed seconds between the stored epochs; the class holds
no cached variance field, so the value is computed from the epoch pair.  An
unset `previousTime` (the sentinel) yields a very large elapsed interval and
hence a very large Q. -/
def RandomWalkModel.getQ (m : RandomWalkModel) : ℚ × RandomWalkModel :=
  (m.qprime * (m.currentTime - m.previousTime), m)

/-- `getPhi` is not overridden: inherited `StochasticModel::getPhi`
(header lines 70-71) returns 1.0. -/
def RandomWalkModel.getPhi (m : RandomWalkModel) : ℚ × RandomWalkModel :=
  (1, m)

/-- Modelled from the spec: the body of `RandomWalkModel::Prepare` (declared
at header lines 173-176, defined outside the snapshot).  Spec 4.2/8: the
record advances on every call — the previous current epoch becomes
`previousTime` and the new epoch becomes `currentTime`, so that two successive
calls at `t0 < t1` leave `getQ` at `qprime * (t1 - t0)` and `getQ` is stable
between `Prepare` calls.  The source, satellite and data arguments are
unused by this global-entity model. -/
def RandomWalkModel.Prepare (m : RandomWalkModel) (epoch : CommonTime)
    (_source : SourceID) (_sat : SatID) (_tData : typeValueMap) :
    RandomWalkModel :=
  { m with previousTime := m.currentTime, currentTime := epoch }

/- ===================== WhiteNoiseModel =================================== -/

/-- `WhiteNoiseModel` (header lines 205-245): only a variance field. -/
structure WhiteNoiseModel where
  variance : ℚ
deriving DecidableEq, Repr

/-- Constructor `WhiteNoiseModel(sigma = 300000.0)` (header lines 215-216):
stores `sigma*sigma`. -/
def WhiteNoiseModel.ofSigma (sigma : ℚ) : WhiteNoiseModel :=
  { variance := sigma * sigma }

/-- Default-argument form of the constructor. -/
def WhiteNoiseModel.init : WhiteNoiseModel := WhiteNoiseModel.ofSigma 300000

/-- `setSigma` (header lines 220-221). -/
def WhiteNoiseModel.setSigma (m : WhiteNoiseModel) (sigma : ℚ) :
    WhiteNoiseModel :=
  { m with variance := sigma * sigma }

/-- `getPhi` (header lines 225-226): always 0.0. -/
def WhiteNoiseModel.getPhi (m : WhiteNoiseModel) : ℚ × WhiteNoiseModel :=
  (0, m)

/-- `getQ` (header lines 230-231): the stored variance. -/
def WhiteNoiseModel.getQ (m : WhiteNoiseModel) : ℚ × WhiteNoiseModel :=
  (m.variance, m)

/-- `Prepare` is not overridden: inherited `StochasticModel::Prepare`
(header lines 79-83) is a no-op. -/
def WhiteNoiseModel.Prepare (m : WhiteNoiseModel) (_epoch : CommonTime)
    (_source : SourceID) (_sat : SatID) (_tData : typeValueMap) :
    WhiteNoiseModel :=
  m

/-- Folding a whole history of `Prepare` calls over a `WhiteNoiseModel`. -/
def WhiteNoiseModel.runPrepares (m : WhiteNoiseModel) :
    List (CommonTime × SourceID × SatID × typeValueMap) → WhiteNoiseModel
  | [] => m
  | (e, src, sat, d) :: rest =>
      (m.Prepare e src sat d).runPrepares rest

/- ===================== PhaseAmbiguityModel =============================== -/

/-- `PhaseAmbiguityModel` (header lines 262-380).  `satArcMap` models the
nested `std::map<SourceID, std::map<SatID, double>>` as a map keyed by the
(source, satellite) pair. -/
structure PhaseAmbiguityModel where
  variance : ℚ
  cycleSlip : Bool
  watchSatArc : Bool
  csFlagType : TypeID
  satArcMap : List ((SourceID × SatID) × ℚ)
deriving DecidableEq, Repr

/-- Constructor `PhaseAmbiguityModel(sigma = 2.0E4)` (header lines 272-274):
`variance = sigma*sigma`, `cycleSlip = false`, `watchSatArc = true`,
`csFlagType = TypeID::CSFlag`; the arc cache starts empty. -/
def PhaseAmbiguityModel.ofSigma (sigma : ℚ) : PhaseAmbiguityModel :=
  { variance := sigma * sigma
    cycleSlip := false
    watchSatArc := true
    csFlagType := TypeID.CSFlag
    satArcMap := [] }

/-- Default-argument form of the constructor. -/
def PhaseAmbiguityModel.init : PhaseAmbiguityModel :=
  PhaseAmbiguityModel.ofSigma 20000

/-- `setCSFlagType` (header lines 284-285). -/
def PhaseAmbiguityModel.setCSFlagType (m : PhaseAmbiguityModel)
    (ty : TypeID) : PhaseAmbiguityModel :=
  { m with csFlagType := ty }

/-- `setSigma` (header lines 295-296). -/
def PhaseAmbiguityModel.setSigma (m : PhaseAmbiguityModel) (sigma : ℚ) :
    PhaseAmbiguityModel :=
  { m with variance := sigma * sigma }

/-- `setCS` (header lines 305-306). -/
def PhaseAmbiguityModel.setCS (m : PhaseAmbiguityModel) (cs : Bool) :
    PhaseAmbiguityModel :=
  { m with cycleSlip := cs }

/-- `getCS` (header lines 314-315). -/
def PhaseAmbiguityModel.getCS (m : PhaseAmbiguityModel) :
    Bool × PhaseAmbiguityModel :=
  (m.cycleSlip, m)

/-- `setWatchSatArc` (header lines 319-320). -/
def PhaseAmbiguityModel.setWatchSatArc (m : PhaseAmbiguityModel)
    (watchArc : Bool) : PhaseAmbiguityModel :=
  { m with watchSatArc := watchArc }

/-- Modelled from the spec: the body of `PhaseAmbiguityModel::getPhi`
(declared at header line 325, defined outside the snapshot).  Spec 4.4:
0.0 when `cycleSlip` is true, else 1.0. -/
def PhaseAmbiguityModel.getPhi (m : PhaseAmbiguityModel) :
    ℚ × PhaseAmbiguityModel :=
  (if m.cycleSlip then 0 else 1, m)

/-- Modelled from the spec: the body of `PhaseAmbiguityModel::getQ`
(declared at header line 329, defined outside the snapshot).  Spec 4.4:
`variance` when `cycleSlip` is true, else 0.0. -/
def PhaseAmbiguityModel.getQ (m : PhaseAmbiguityModel) :
    ℚ × PhaseAmbiguityModel :=
  (if m.cycleSlip then m.variance else 0, m)

/-- Modelled from the spec: the body of `PhaseAmbiguityModel::checkCS`
(declared at header lines 376-378, defined outside the snapshot).  Spec 4.4:
arc mode (`watchSatArc` true) reads the `TypeID::satArc` value for this
satellite, compares it with the cached value for (source, satellite) — a
change means a slip, and the cache is updated to the new value regardless; a
first observation establishes the baseline with no slip.  Flag mode reads the
`csFlagType` field directly; nonzero means a slip.  A missing data field is
treated as "no slip" (fail-open). -/
def PhaseAmbiguityModel.checkCS (m : PhaseAmbiguityModel) (source : SourceID)
    (sat : SatID) (data : satTypeValueMap) : PhaseAmbiguityModel :=
  if m.watchSatArc then
    match (alookup data sat).bind (fun tv => alookup tv TypeID.satArc) with
    | none => { m with cycleSlip := false }
    | some arc =>
        match alookup m.satArcMap (source, sat) with
        | none =>
            { m with cycleSlip := false
                     satArcMap := aset m.satArcMap (source, sat) arc }
        | some cached =>
            { m with cycleSlip := decide (arc ≠ cached)
                     satArcMap := aset m.satArcMap (source, sat) arc }
  else
    match (alookup data sat).bind (fun tv => alookup tv m.csFlagType) with
    | none => { m with cycleSlip := false }
    | some flag => { m with cycleSlip := decide (flag ≠ 0) }

/-- `Prepare` (header lines 332-343, inline in the header): wraps the single
satellite's data into a one-entry `satTypeValueMap` and delegates to
`checkCS`. -/
def PhaseAmbiguityModel.Prepare (m : PhaseAmbiguityModel)
    (_epoch : CommonTime) (source : SourceID) (sat : SatID)
    (tData : typeValueMap) : PhaseAmbiguityModel :=
  m.checkCS source sat [(sat, tData)]

/-- Run a sequence of satellite-arc values through successive `Prepare`
calls for one (source, satellite) key, collecting after each call the
cycle-slip flag and the cached arc value for that key. -/
def PhaseAmbiguityModel.runArc (m : PhaseAmbiguityModel) (source : SourceID)
    (sat : SatID) : List ℚ → List (Bool × Option ℚ)
  | [] => []
  | v :: vs =>
      let m2 := m.Prepare 0 source sat [(TypeID.satArc, v)]
      (m2.cycleSlip, alookup m2.satArcMap (source, sat))
        :: m2.runArc source sat vs

/- ===================== Per-entity random-walk family ===================== -/

/-- Per-entity epoch record (`tropModelData`, `tropGradModelData`,
`ionoModelData`, `recBiasModelData`, `satBiasModelData`, `ISBData`,
`IFCBData`): default-constructed with `previousTime` at the sentinel. -/
structure EpochRecord where
  previousTime : CommonTime := BEGINNING_OF_TIME
  currentTime : CommonTime := BEGINNING_OF_TIME
deriving DecidableEq, Repr

/-- Common shape of the seven per-entity random-walk variants, parameterised
by the entity-key type `κ`: one shared spectral density, a per-key registry
of epoch records (named `tmData`/`gmData`/`imData`/`rbData`/`sbData`/
`ISBmData`/`IFCBmData` in the respective C++ classes), and the variance
cached for `getQ`. -/
structure PerEntityRW (κ : Type) where
  qprime : ℚ
  rwData : List (κ × EpochRecord)
  variance : ℚ
deriving DecidableEq, Repr

/-- `setPreviousTime(key, prevTime)` of the per-entity variants (e.g. header
lines 409-411): lazily creates the record and sets its previous epoch. -/
def PerEntityRW.setPreviousTime {κ : Type} [DecidableEq κ]
    (m : PerEntityRW κ) (k : κ) (prevTime : CommonTime) : PerEntityRW κ :=
  let r := (alookup m.rwData k).getD {}
  { m with rwData := aset m.rwData k { r with previousTime := prevTime } }

/-- `setCurrentTime(key, currTime)` of the per-entity variants (e.g. header
lines 420-422). -/
def PerEntityRW.setCurrentTime {κ : Type} [DecidableEq κ]
    (m : PerEntityRW κ) (k : κ) (currTime : CommonTime) : PerEntityRW κ :=
  let r := (alookup m.rwData k).getD {}
  { m with rwData := aset m.rwData k { r with currentTime := currTime } }

/-- The per-key `setQprime(key, qp)` overloads, inline in the header
(Tropo 462-464, TropoGrad 610-612, RecBias 957-959, SatBias 1116-1118,
ISB 1272-1274, IFCB 1432-1435): each body is `{ qprime = qp; return *this; }`
— only the single shared `qprime` field is assigned; the key is unused. -/
def PerEntityRW.setQprimeKey {κ : Type} (m : PerEntityRW κ) (_k : κ)
    (qp : ℚ) : PerEntityRW κ :=
  { m with qprime := qp }

/-- `getQ` of the per-entity variants, inline in the header (e.g. lines
475-476): returns the cached variance from the last `Prepare`. -/
def PerEntityRW.getQ {κ : Type} (m : PerEntityRW κ) : ℚ × PerEntityRW κ :=
  (m.variance, m)

/-- `getPhi` is not overridden by any per-entity variant: inherited
`StochasticModel::getPhi` (header lines 70-71) returns 1.0. -/
def PerEntityRW.getPhi {κ : Type} (m : PerEntityRW κ) : ℚ × PerEntityRW κ :=
  (1, m)

/-- Modelled from the spec: the shared `computeQ` body of the per-entity
variants (declared e.g. at header lines 524-526, defined outside the
snapshot), invoked by `Prepare`.  Spec 4.5: look up or lazily create the
record for the key; set `currentTime = epoch`; if `previousTime` is unset
(the sentinel) seed it with the current epoch and report a zero-elapsed
interval; otherwise `Q = qprime * (currentTime - previousTime)` clamped to
be at least 0; finally advance `previousTime` to `currentTime`. -/
def PerEntityRW.computeQ {κ : Type} [DecidableEq κ] (m : PerEntityRW κ)
    (epoch : CommonTime) (k : κ) : PerEntityRW κ :=
  let r := (alookup m.rwData k).getD {}
  let prev := if r.previousTime = BEGINNING_OF_TIME then epoch
              else r.previousTime
  { m with
      variance := max 0 (m.qprime * (epoch - prev))
      rwData := aset m.rwData k
        { previousTime := epoch, currentTime := epoch } }

/-- `TropoRandomWalkModel` (header lines 393-529): keyed by station. -/
abbrev TropoRandomWalkModel := PerEntityRW SourceID

/-- Default constructor `TropoRandomWalkModel()` (header lines 398-400):
`qprime = 5.0e-8`, empty registry.  (The C++ default constructor leaves the
`variance` field value-uninitialized; it is modelled as 0 and is overwritten
by the first `Prepare`.) -/
def tropoRandomWalkInit : TropoRandomWalkModel :=
  { qprime := 5.0e-8, rwData := [], variance := 0 }

/-- `TropoRandomWalkModel::Prepare` (declared at header lines 482-485;
spec 4.5: `Prepare` invokes the shared `computeQ`, keyed by the station). -/
def TropoRandomWalkModel.Prepare (m : TropoRandomWalkModel)
    (epoch : CommonTime) (source : SourceID) (_sat : SatID)
    (_tData : typeValueMap) : TropoRandomWalkModel :=
  m.computeQ epoch source

/-- `TropoGradRandomWalkModel` (header lines 541-678): keyed by station. -/
abbrev TropoGradRandomWalkModel := PerEntityRW SourceID

/-- Default constructor `TropoGradRandomWalkModel()` (header lines 546-548):
`qprime = 5e-10`. -/
def tropoGradRandomWalkInit : TropoGradRandomWalkModel :=
  { qprime := 5.0e-10, rwData := [], variance := 0 }

/-- `RecBiasRandomWalkModel` (header lines 888-1033): keyed by station. -/
abbrev RecBiasRandomWalkModel := PerEntityRW SourceID

/-- Default constructor `RecBiasRandomWalkModel()` (header lines 893-895):
`qprime = 1.0e-4`. -/
def recBiasRandomWalkInit : RecBiasRandomWalkModel :=
  { qprime := 1.0e-4, rwData := [], variance := 0 }

/-- `SatBiasRandomWalkModel` (header lines 1047-1187): keyed by satellite. -/
abbrev SatBiasRandomWalkModel := PerEntityRW SatID

/-- Default constructor `SatBiasRandomWalkModel()` (header lines 1052-1054):
`qprime = 3e-6`. -/
def satBiasRandomWalkInit : SatBiasRandomWalkModel :=
  { qprime := 3.0e-6, rwData := [], variance := 0 }

/-- `ISBRandomWalkModel` (header lines 1203-1343): keyed by station. -/
abbrev ISBRandomWalkModel := PerEntityRW SourceID

/-- Default constructor `ISBRandomWalkModel()` (header lines 1208-1210):
`qprime = 9.0e-4`. -/
def isbRandomWalkInit : ISBRandomWalkModel :=
  { qprime := 9.0e-4, rwData := [], variance := 0 }

/-- `IFCBRandomWalkModel` (header lines 1358-1501): keyed by the
(station, satellite) pair, modelling the nested
`std::map<SourceID, std::map<SatID, IFCBData>>`. -/
abbrev IFCBRandomWalkModel := PerEntityRW (SourceID × SatID)

/-- Default constructor `IFCBRandomWalkModel()` (header lines 1363-1365):
`qprime = 1e-4`. -/
def ifcbRandomWalkInit : IFCBRandomWalkModel :=
  { qprime := 1.0e-4, rwData := [], variance := 0 }

/- ===================== IonoRandomWalkModel =============================== -/

/-- `IonoRandomWalkModel` (header lines 701-875): keyed by satellite, with
the scheduled-interrupt configuration on top of the common pattern. -/
structure IonoRandomWalkModel where
  insertInterrupt : Bool
  sampling : ℚ
  tolerance : ℚ
  initialTime : CommonTime
  qprime : ℚ
  imData : List (SatID × EpochRecord)
  variance : ℚ
deriving DecidableEq, Repr

/-- Default constructor `IonoRandomWalkModel()` (header lines 706-712):
`qprime = 1.0e-3`, `insertInterrupt = true`, `sampling = 7200.0`,
`tolerance = 0.5`, `initialTime = BEGINNING_OF_TIME`.  (The `variance`
field is value-uninitialized in C++; modelled as 0 and overwritten by the
first `Prepare`.) -/
def ionoRandomWalkInit : IonoRandomWalkModel :=
  { insertInterrupt := true
    sampling := 7200
    tolerance := 0.5
    initialTime := BEGINNING_OF_TIME
    qprime := 1.0e-3
    imData := []
    variance := 0 }

/-- `setPreviousTime(sat, prevTime)` (header lines 721-723). -/
def IonoRandomWalkModel.setPreviousTime (m : IonoRandomWalkModel)
    (sat : SatID) (prevTime : CommonTime) : IonoRandomWalkModel :=
  let r := (alookup m.imData sat).getD {}
  { m with imData := aset m.imData sat { r with previousTime := prevTime } }

/-- `setCurrentTime(sat, currTime)` (header lines 732-734). -/
def IonoRandomWalkModel.setCurrentTime (m : IonoRandomWalkModel)
    (sat : SatID) (currTime : CommonTime) : IonoRandomWalkModel :=
  let r := (alookup m.imData sat).getD {}
  { m with imData := aset m.imData sat { r with currentTime := currTime } }

/-- Per-satellite `setQprime(sat, qp)` (header lines 774-776, inline):
`{ qprime = qp; return *this; }` — only the shared `qprime` is assigned. -/
def IonoRandomWalkModel.setQprimeSat (m : IonoRandomWalkModel) (_sat : SatID)
    (qp : ℚ) : IonoRandomWalkModel :=
  { m with qprime := qp }

/-- `setInitialEpoch` (header lines 783-784). -/
def IonoRandomWalkModel.setInitialEpoch (m : IonoRandomWalkModel)
    (initialEpoch : CommonTime) : IonoRandomWalkModel :=
  { m with initialTime := initialEpoch }

/-- `setInsertInterrupt` (header lines 791-792). -/
def IonoRandomWalkModel.setInsertInterrupt (m : IonoRandomWalkModel)
    (insert : Bool) : IonoRandomWalkModel :=
  { m with insertInterrupt := insert }

/-- `getQ` (header lines 802-803): the cached variance. -/
def IonoRandomWalkModel.getQ (m : IonoRandomWalkModel) :
    ℚ × IonoRandomWalkModel :=
  (m.variance, m)

/-- `getPhi` is not overridden: inherited `StochasticModel::getPhi`
(header lines 70-71) returns 1.0. -/
def IonoRandomWalkModel.getPhi (m : IonoRandomWalkModel) :
    ℚ × IonoRandomWalkModel :=
  (1, m)

/-- Modelled from the spec: the forced-discontinuity variance used by the
interrupt branch.  Spec 4.5 requires only "a large uninformative Q"; the
concrete magnitude is not stated anywhere in the snapshot, so it is fixed
here to the subsystem's "very high" default (the `RandomWalkModel` default
qprime, header line 110). -/
def ionoInterruptQ : ℚ := 90000000000

/-- Nearest integer to a rational, computed on numerator and denominator
(`floor (x + 1/2)`, written with floor division so it evaluates). -/
def ratRound (x : ℚ) : ℤ := Int.fdiv (2 * x.num + x.den) (2 * x.den)

/-- Modelled from the spec: the interrupt test of `IonoRandomWalkModel`
(spec 4.5 extra behavior): the current epoch falls within `tolerance`
seconds of an integer multiple of `sampling` seconds measured from
`initialTime`.  The nearest integer multiple is found by rounding. -/
def IonoRandomWalkModel.interruptHit (m : IonoRandomWalkModel)
    (epoch : CommonTime) : Bool :=
  let d := epoch - m.initialTime
  let k : ℤ := ratRound (d / m.sampling)
  decide (|d - (k : ℚ) * m.sampling| ≤ m.tolerance)

/-- Soundness of the interrupt test: a hit really does place the epoch within
`tolerance` seconds of an integer multiple of `sampling` measured from
`initialTime`. -/
theorem interruptHit_sound (m : IonoRandomWalkModel) (epoch : CommonTime)
    (h : m.interruptHit epoch = true) :
    ∃ k : ℤ, |(epoch - m.initialTime) - (k : ℚ) * m.sampling| ≤ m.tolerance := by
  refine ⟨ratRound ((epoch - m.initialTime) / m.sampling), ?_⟩
  simpa [IonoRandomWalkModel.interruptHit] using h

/-- Modelled from the spec: the body of `IonoRandomWalkModel::Prepare`
(declared at header lines 814-817, defined outside the snapshot).  Spec 4.5:
the interrupt rule is evaluated first — if `insertInterrupt` is enabled and
the epoch lies on an interrupt boundary the variance is forced to a large
uninformative value, short-circuiting the standard path; otherwise the shared
per-entity `computeQ` algorithm runs, keyed by the satellite. -/
def IonoRandomWalkModel.Prepare (m : IonoRandomWalkModel)
    (epoch : CommonTime) (_source : SourceID) (sat : SatID)
    (_tData : typeValueMap) : IonoRandomWalkModel :=
  if m.insertInterrupt && m.interruptHit epoch then
    { m with variance := ionoInterruptQ }
  else
    let r := (alookup m.imData sat).getD {}
    let prev := if r.previousTime = BEGINNING_OF_TIME then epoch
                else r.previousTime
    { m with
        variance := max 0 (m.qprime * (epoch - prev))
        imData := aset m.imData sat
          { previousTime := epoch, currentTime := epoch } }

/- ===================== Shared helper lemmas ============================== -/

theorem runPrepares_eq_self (m : WhiteNoiseModel)
    (hist : List (CommonTime × SourceID × SatID × typeValueMap)) :
    m.runPrepares hist = m := by
  induction hist with
  | nil => rfl
  | cons p rest ih =>
      obtain ⟨e, src, sat, d⟩ := p
      simpa [WhiteNoiseModel.runPrepares, WhiteNoiseModel.Prepare] using ih

/- ===================== Claim theorems ==================================== -/

/-- C4: for every `PhaseAmbiguityModel`, immediately after `setCS(true)`,
`getPhi()` returns 0.0 and `getQ()` returns the configured variance;
immediately after `setCS(false)`, `getPhi()` returns 1.0 and `getQ()`
returns 0.0. -/
theorem claim_C4_setCS_phi_q (m : PhaseAmbiguityModel) :
    ((m.setCS true).getPhi).1 = 0
      ∧ ((m.setCS true).getQ).1 = m.variance
      ∧ ((m.setCS false).getPhi).1 = 1
      ∧ ((m.setCS false).getQ).1 = 0 := by
  simp [PhaseAmbiguityModel.setCS, PhaseAmbiguityModel.getPhi,
    PhaseAmbiguityModel.getQ]

/-- C6: for every `WhiteNoiseModel` whose sigma was set to `s` (via
constructor or `setSigma`), `getQ()` returns `s*s` and `getPhi()` returns
0.0, regardless of any history of `Prepare` calls. -/
theorem claim_C6_whiteNoise_q_phi (s : ℚ) (m : WhiteNoiseModel)
    (hist : List (CommonTime × SourceID × SatID × typeValueMap)) :
    (((WhiteNoiseModel.ofSigma s).runPrepares hist).getQ).1 = s * s
      ∧ (((WhiteNoiseModel.ofSigma s).runPrepares hist).getPhi).1 = 0
      ∧ (((m.setSigma s).runPrepares hist).getQ).1 = s * s
      ∧ (((m.setSigma s).runPrepares hist).getPhi).1 = 0 := by
  simp [runPrepares_eq_self, WhiteNoiseModel.ofSigma, WhiteNoiseModel.setSigma,
    WhiteNoiseModel.getQ, WhiteNoiseModel.getPhi]

/-- C7: each of the seven per-entity random-walk variants default-constructs
with the default qprime of the spec's table and an empty registry of the
variant's entity-key shape (station, satellite, or the (station, satellite)
pair). -/
theorem claim_C7_default_qprime :
    (tropoRandomWalkInit.qprime = 5 / 10 ^ 8
        ∧ tropoRandomWalkInit.rwData = ([] : List (SourceID × EpochRecord)))
      ∧ (tropoGradRandomWalkInit.qprime = 5 / 10 ^ 10
        ∧ tropoGradRandomWalkInit.rwData = ([] : List (SourceID × EpochRecord)))
      ∧ (ionoRandomWalkInit.qprime = 1 / 10 ^ 3
        ∧ ionoRandomWalkInit.imData = ([] : List (SatID × EpochRecord)))
      ∧ (recBiasRandomWalkInit.qprime = 1 / 10 ^ 4
        ∧ recBiasRandomWalkInit.rwData = ([] : List (SourceID × EpochRecord)))
      ∧ (satBiasRandomWalkInit.qprime = 3 / 10 ^ 6
        ∧ satBiasRandomWalkInit.rwData = ([] : List (SatID × EpochRecord)))
      ∧ (isbRandomWalkInit.qprime = 9 / 10 ^ 4
        ∧ isbRandomWalkInit.rwData = ([] : List (SourceID × EpochRecord)))
      ∧ (ifcbRandomWalkInit.qprime = 1 / 10 ^ 4
        ∧ ifcbRandomWalkInit.rwData
            = ([] : List ((SourceID × SatID) × EpochRecord))) := by
  refine ⟨⟨?_, rfl⟩, ⟨?_, rfl⟩, ⟨?_, rfl⟩, ⟨?_, rfl⟩, ⟨?_, rfl⟩, ⟨?_, rfl⟩,
    ⟨?_, rfl⟩⟩ <;>
    norm_num [tropoRandomWalkInit, tropoGradRandomWalkInit, ionoRandomWalkInit,
      recBiasRandomWalkInit, satBiasRandomWalkInit, isbRandomWalkInit,
      ifcbRandomWalkInit]

/-- C9: for every model variant and every state, calling `getPhi()`/`getQ()`
(and `getCS()`) repeatedly without an intervening `Prepare` returns identical
values on every call and leaves the model state unchanged. -/
theorem claim_C9_getters_stable :
    (∀ m : RandomWalkModel, (m.getQ).2 = m ∧ (m.getPhi).2 = m
        ∧ (((m.getQ).2).getQ).1 = (m.getQ).1
        ∧ (((m.getPhi).2).getPhi).1 = (m.getPhi).1)
      ∧ (∀ m : WhiteNoiseModel, (m.getQ).2 = m ∧ (m.getPhi).2 = m
        ∧ (((m.getQ).2).getQ).1 = (m.getQ).1
        ∧ (((m.getPhi).2).getPhi).1 = (m.getPhi).1)
      ∧ (∀ m : PhaseAmbiguityModel, (m.getQ).2 = m ∧ (m.getPhi).2 = m
        ∧ (m.getCS).2 = m
        ∧ (((m.getQ).2).getQ).1 = (m.getQ).1
        ∧ (((m.getPhi).2).getPhi).1 = (m.getPhi).1)
      ∧ (∀ (κ : Type) (m : PerEntityRW κ), (m.getQ).2 = m ∧ (m.getPhi).2 = m
        ∧ (((m.getQ).2).getQ).1 = (m.getQ).1
        ∧ (((m.getPhi).2).getPhi).1 = (m.getPhi).1)
      ∧ (∀ m : IonoRandomWalkModel, (m.getQ).2 = m ∧ (m.getPhi).2 = m
        ∧ (((m.getQ).2).getQ).1 = (m.getQ).1
        ∧ (((m.getPhi).2).getPhi).1 = (m.getPhi).1) :=
  ⟨fun _ => ⟨rfl, rfl, rfl, rfl⟩,
   fun _ => ⟨rfl, rfl, rfl, rfl⟩,
   fun _ => ⟨rfl, rfl, rfl, rfl, rfl⟩,
   fun _ _ => ⟨rfl, rfl, rfl, rfl⟩,
   fun _ => ⟨rfl, rfl, rfl, rfl⟩⟩

/-- C10: the three-argument constructor `RandomWalkModel(qp, prevTime,
currTime)` ignores its `currentTime` argument — the constructed object's
`currentTime` field equals `prevTime`, whatever `currTime` was passed. -/
theorem claim_C10_ctor_ignores_currentTime (qp : ℚ)
    (prevTime currTime : CommonTime) :
    RandomWalkModel.mk3 qp prevTime currTime
        = RandomWalkModel.mk3 qp prevTime prevTime
      ∧ (RandomWalkModel.mk3 qp prevTime currTime).currentTime = prevTime
      ∧ (RandomWalkModel.mk3 qp prevTime currTime).previousTime = prevTime
      ∧ (RandomWalkModel.mk3 qp prevTime currTime).qprime = qp :=
  ⟨rfl, rfl, rfl, rfl⟩

/-- C1: for a random-walk-family instance with a fixed qprime, two `Prepare`
calls for the same entity at epochs `t0 < t1` leave `getQ()` at
`qprime * (t1 - t0)` and `getPhi()` at 1.0 (shown for the single-entity
`RandomWalkModel` and for the cited per-entity `TropoRandomWalkModel`,
keyed by the station). -/
theorem claim_C1_two_prepares (mr : RandomWalkModel) (mt : TropoRandomWalkModel)
    (t0 t1 : CommonTime) (src : SourceID) (sat : SatID) (d : typeValueMap)
    (h01 : t0 < t1) (hq : 0 ≤ mt.qprime) (h0 : BEGINNING_OF_TIME < t0) :
    (((mr.Prepare t0 src sat d).Prepare t1 src sat d).getQ).1
        = mr.qprime * (t1 - t0)
      ∧ (((mr.Prepare t0 src sat d).Prepare t1 src sat d).getPhi).1 = 1
      ∧ ((TropoRandomWalkModel.Prepare
            (TropoRandomWalkModel.Prepare mt t0 src sat d) t1 src sat d).getQ).1
          = mt.qprime * (t1 - t0)
      ∧ ((TropoRandomWalkModel.Prepare
            (TropoRandomWalkModel.Prepare mt t0 src sat d) t1 src sat d).getPhi).1
          = 1 := by
  refine ⟨rfl, rfl, ?_, rfl⟩
  have hne : t0 ≠ BEGINNING_OF_TIME := ne_of_gt h0
  simp only [TropoRandomWalkModel.Prepare, PerEntityRW.computeQ,
    PerEntityRW.getQ, alookup_aset, Option.getD_some]
  rw [if_neg hne]
  exact max_eq_right (mul_nonneg hq (by linarith))

theorem claim_C1_two_prepares_witness :
    (((RandomWalkModel.init.Prepare 100 0 1 []).Prepare 130 0 1 []).getQ).1
        = RandomWalkModel.init.qprime * (130 - 100)
      ∧ (((RandomWalkModel.init.Prepare 100 0 1 []).Prepare 130 0 1 []).getPhi).1
          = 1
      ∧ ((TropoRandomWalkModel.Prepare
            (TropoRandomWalkModel.Prepare tropoRandomWalkInit 100 0 1 [])
            130 0 1 []).getQ).1
          = tropoRandomWalkInit.qprime * (130 - 100)
      ∧ ((TropoRandomWalkModel.Prepare
            (TropoRandomWalkModel.Prepare tropoRandomWalkInit 100 0 1 [])
            130 0 1 []).getPhi).1 = 1 :=
  claim_C1_two_prepares RandomWalkModel.init tropoRandomWalkInit 100 130 0 1 []
    (by norm_num) (by norm_num [tropoRandomWalkInit])
    (by norm_num [BEGINNING_OF_TIME])

/-- C2: whenever `insertInterrupt` is enabled and a `Prepare` epoch lies
within `tolerance` seconds of an integer multiple of `sampling` seconds from
`initialTime`, `IonoRandomWalkModel` takes the forced-discontinuity branch
(the large uninformative Q) instead of the elapsed-time Q; and the default
constructor sets `insertInterrupt = true`, `sampling = 7200.0`,
`tolerance = 0.5`. -/
theorem claim_C2_iono_interrupt :
    (∀ (m : IonoRandomWalkModel) (epoch : CommonTime) (src : SourceID)
        (sat : SatID) (d : typeValueMap),
        m.insertInterrupt = true → m.interruptHit epoch = true →
        ((m.Prepare epoch src sat d).getQ).1 = ionoInterruptQ)
      ∧ ionoRandomWalkInit.insertInterrupt = true
      ∧ ionoRandomWalkInit.sampling = 7200
      ∧ ionoRandomWalkInit.tolerance = 1 / 2 := by
  refine ⟨?_, rfl, rfl, by norm_num [ionoRandomWalkInit]⟩
  intro m epoch src sat d h1 h2
  simp [IonoRandomWalkModel.Prepare, IonoRandomWalkModel.getQ, h1, h2]

theorem claim_C2_iono_interrupt_witness :
    ((((ionoRandomWalkInit.setInitialEpoch 0).setPreviousTime 3 7195).Prepare
        7200 0 3 []).getQ).1 = ionoInterruptQ :=
  claim_C2_iono_interrupt.1
    ((ionoRandomWalkInit.setInitialEpoch 0).setPreviousTime 3 7195)
    7200 0 3 [] rfl
    (by simp only [IonoRandomWalkModel.interruptHit,
      IonoRandomWalkModel.setPreviousTime, IonoRandomWalkModel.setInitialEpoch,
      ionoRandomWalkInit, ratRound]
        norm_num [Int.fdiv])

/-- C3: in arc mode (the default), for any fixed (source, satellite) key,
feeding satellite-arc values `[1,1,1,2,2]` across five `Prepare`/`checkCS`
calls yields the slip sequence `[false, false, false, true, false]`, with the
cached arc value updated to the fed value on every call. -/
theorem claim_C3_arc_slip_sequence (src : SourceID) (sat : SatID) :
    PhaseAmbiguityModel.init.watchSatArc = true
      ∧ PhaseAmbiguityModel.runArc PhaseAmbiguityModel.init src sat
          [1, 1, 1, 2, 2]
        = [(false, some 1), (false, some 1), (false, some 1),
           (true, some 2), (false, some 2)] := by
  constructor
  · rfl
  · simp [PhaseAmbiguityModel.runArc, PhaseAmbiguityModel.Prepare,
      PhaseAmbiguityModel.checkCS, PhaseAmbiguityModel.init,
      PhaseAmbiguityModel.ofSigma, alookup, aset]

/-- C5: the per-entity `setQprime(key, value)` overloads only assign the
single shared `qprime` field (no other field changes, whatever the key), so
a subsequent Q computation for any entity key uses `value` as the spectral
density (shown for the shared per-entity shape covering the six
station/satellite/pair-keyed variants, and for `IonoRandomWalkModel`'s own
overload). -/
theorem claim_C5_setQprimeKey_shared (κ : Type) [DecidableEq κ]
    (m : PerEntityRW κ) (k k2 : κ) (v : ℚ) (mi : IonoRandomWalkModel)
    (sat : SatID) (epoch : CommonTime) (r : EpochRecord)
    (hr : alookup m.rwData k2 = some r)
    (hp : r.previousTime ≠ BEGINNING_OF_TIME) :
    PerEntityRW.setQprimeKey m k v = { m with qprime := v }
      ∧ mi.setQprimeSat sat v = { mi with qprime := v }
      ∧ ((PerEntityRW.setQprimeKey m k v).computeQ epoch k2).variance
          = max 0 (v * (epoch - r.previousTime)) := by
  refine ⟨rfl, rfl, ?_⟩
  simp [PerEntityRW.setQprimeKey, PerEntityRW.computeQ, hr, hp]

theorem claim_C5_setQprimeKey_shared_witness :
    PerEntityRW.setQprimeKey
        (⟨1, [(2, ⟨5, 5⟩)], 0⟩ : PerEntityRW ℕ) 1 3
        = { (⟨1, [(2, ⟨5, 5⟩)], 0⟩ : PerEntityRW ℕ) with qprime := 3 }
      ∧ ionoRandomWalkInit.setQprimeSat 0 3
          = { ionoRandomWalkInit with qprime := 3 }
      ∧ ((PerEntityRW.setQprimeKey
            (⟨1, [(2, ⟨5, 5⟩)], 0⟩ : PerEntityRW ℕ) 1 3).computeQ 7 2).variance
          = max 0 (3 * (7 - (⟨5, 5⟩ : EpochRecord).previousTime)) :=
  claim_C5_setQprimeKey_shared ℕ ⟨1, [(2, ⟨5, 5⟩)], 0⟩ 1 2 3
    ionoRandomWalkInit 0 7 ⟨5, 5⟩ (by simp [alookup])
    (by norm_num [BEGINNING_OF_TIME])

/-- C8 (as frozen) is false: `RandomWalkModel` does not clamp, so a history
with out-of-order epochs drives `getQ()` negative (here: qprime 1, `Prepare`
at epoch 10 then at epoch 0 gives Q = -10). -/
theorem claim_C8_counterexample :
    ((((RandomWalkModel.init.setQprime 1).Prepare 10 0 0 []).Prepare
        0 0 0 []).getQ).1 < 0 := by
  norm_num [RandomWalkModel.init, RandomWalkModel.setQprime,
    RandomWalkModel.Prepare, RandomWalkModel.getQ]

/-- C8 (amended): variance/Q stay non-negative for `WhiteNoiseModel`, for
`PhaseAmbiguityModel` with a non-negatively configured variance, and
unconditionally for the per-entity random-walk `computeQ` (clamped) and the
`IonoRandomWalkModel` `Prepare`; for the single-entity `RandomWalkModel`,
`getQ()` is non-negative provided `qprime` is non-negative and the stored
epochs are in order (`previousTime ≤ currentTime`). -/
theorem claim_C8_variance_nonneg_amended :
    (∀ (s : ℚ) (m : WhiteNoiseModel),
        0 ≤ (WhiteNoiseModel.ofSigma s).variance
          ∧ 0 ≤ ((m.setSigma s).getQ).1)
      ∧ (∀ (s : ℚ) (m : PhaseAmbiguityModel), 0 ≤ ((m.setSigma s).getQ).1)
      ∧ (∀ m : PhaseAmbiguityModel, 0 ≤ m.variance → 0 ≤ (m.getQ).1)
      ∧ (∀ (κ : Type) [DecidableEq κ] (m : PerEntityRW κ)
          (epoch : CommonTime) (k : κ), 0 ≤ ((m.computeQ epoch k).getQ).1)
      ∧ (∀ (m : IonoRandomWalkModel) (epoch : CommonTime) (src : SourceID)
          (sat : SatID) (d : typeValueMap),
          0 ≤ ((m.Prepare epoch src sat d).getQ).1)
      ∧ (∀ m : RandomWalkModel, 0 ≤ m.qprime →
          m.previousTime ≤ m.currentTime → 0 ≤ (m.getQ).1) := by
  refine ⟨?_, ?_, ?_, ?_, ?_, ?_⟩
  · intro s m
    exact ⟨mul_self_nonneg s, by
      simp only [WhiteNoiseModel.setSigma, WhiteNoiseModel.getQ]
      exact mul_self_nonneg s⟩
  · intro s m
    simp only [PhaseAmbiguityModel.setSigma, PhaseAmbiguityModel.getQ]
    split
    · exact mul_self_nonneg s
    · exact le_refl 0
  · intro m hv
    simp only [PhaseAmbiguityModel.getQ]
    split
    · exact hv
    · exact le_refl 0
  · intro κ inst m epoch k
    simp only [PerEntityRW.computeQ, PerEntityRW.getQ]
    exact le_max_left 0 _
  · intro m epoch src sat d
    simp only [IonoRandomWalkModel.Prepare, IonoRandomWalkModel.getQ]
    split
    · norm_num [ionoInterruptQ]
    · exact le_max_left 0 _
  · intro m hq hle
    simp only [RandomWalkModel.getQ]
    exact mul_nonneg hq (by linarith)

theorem claim_C8_variance_nonneg_amended_witness :
    (0 ≤ (WhiteNoiseModel.ofSigma 3).variance
        ∧ 0 ≤ ((WhiteNoiseModel.init.setSigma 3).getQ).1)
      ∧ 0 ≤ ((PhaseAmbiguityModel.init.getQ)).1
      ∧ 0 ≤ ((⟨1, 2, 5⟩ : RandomWalkModel).getQ).1 :=
  ⟨claim_C8_variance_nonneg_amended.1 3 WhiteNoiseModel.init,
   claim_C8_variance_nonneg_amended.2.2.1 PhaseAmbiguityModel.init
     (by norm_num [PhaseAmbiguityModel.init, PhaseAmbiguityModel.ofSigma]),
   claim_C8_variance_nonneg_amended.2.2.2.2.2 ⟨1, 2, 5⟩ (by norm_num)
     (by norm_num)⟩

end gnssSpace
